import Mathlib

/-!
# body_validator — a shallow embedding of `src/index.ts`

The library validates untyped JavaScript values (parsed HTTP bodies).
We model the dynamic values as an inductive type `Value`.

Modelling conventions, stated once:

* JavaScript numbers are idealised as rationals (`Rat`); `typeof x === "number"`
  is the `vnum` constructor and `Number.isInteger` is "denominator = 1".
  (`NaN`/infinities and float rounding are outside the model; no claim in this
  development depends on them.)
* A `vobj` carries its fields as a list in the host's enumeration order
  (the order `Object.keys` / `Object.values` would produce); JavaScript
  object keys are unique, so field lists are assumed duplicate-free where
  it matters and key-indexed traversal of an object equals traversal of
  its entry list.
* The prototype chain is modelled: a plain object (every `vobj`, and every
  shape literal) inherits from `Object.prototype`, so JS `in` is true and
  property reads succeed for its twelve property names even when the key
  is not an own key; an array additionally has an own `length` and inherits
  `Array.prototype`'s members. The inherited members are native functions
  (`typeof` "function", which every runtime-type check of the library
  rejects), represented by the `vfun` constructor; `__proto__` evaluates
  to the prototype object itself.
* `===` on objects and arrays is reference equality in the host; a shallow
  embedding has no references, so `jsStrictEq` compares scalars structurally
  and returns `false` on any object/array pair (two separately-written
  literals are distinct references; the README's own example is
  `v.exact({}).is_valid({}) // => false`).
-/

namespace BodyValidator

/-- A JavaScript dynamic value. `vfun name` is a host function object —
in this development only the native members inherited from
`Object.prototype` / `Array.prototype` arise, identified by their `name`
property (`typeof` gives "function" for them, never "object"). -/
inductive Value where
  | vnull
  | vundefined
  | vbool (b : Bool)
  | vnum (q : Rat)
  | vstr (s : String)
  | varr (elements : List Value)
  | vobj (fields : List (String × Value))
  | vfun (name : String)

/-- `double_quote` from `src/index.ts:20`. -/
def double_quote (str : String) : String := "\"" ++ str ++ "\""

/-- A `Validator<T>` (src/index.ts:5-8), with the static type parameter erased:
a pair of a boolean predicate and a message function. -/
structure Validator where
  is_valid : Value → Bool
  get_messages : Value → String → List String

/-- `is_string` (src/index.ts:22): `typeof input === "string"`. -/
def is_string : Value → Bool
  | .vstr _ => true
  | _ => false

/-- `string_validator` (src/index.ts:24-27). -/
def string_validator : Validator where
  is_valid := is_string
  get_messages input name := if is_string input then [] else [double_quote name ++ " is not a string"]

/-- `is_number` (src/index.ts:29): `typeof input === "number"`. -/
def is_number : Value → Bool
  | .vnum _ => true
  | _ => false

/-- `number_validator` (src/index.ts:31-34). -/
def number_validator : Validator where
  is_valid := is_number
  get_messages input name := if is_number input then [] else [double_quote name ++ " is not a number"]

/-- `is_integer` (src/index.ts:36): `Number.isInteger(input)` — a number with
no fractional part. -/
def is_integer : Value → Bool
  | .vnum q => q.den == 1
  | _ => false

/-- `integer_validator` (src/index.ts:38-41). Note that, as in the source, the
message branch tests `is_number`, not `is_integer`. -/
def integer_validator : Validator where
  is_valid := is_integer
  get_messages input name := if is_number input then [] else [double_quote name ++ " is not an integer"]

/-- `is_boolean` (src/index.ts:43): `typeof input === "boolean"`. -/
def is_boolean : Value → Bool
  | .vbool _ => true
  | _ => false

/-- `boolean_validator` (src/index.ts:45-48). -/
def boolean_validator : Validator where
  is_valid := is_boolean
  get_messages input name := if is_boolean input then [] else [double_quote name ++ " is not a boolean"]

/-- `is_object` (src/index.ts:50): `!!input && typeof input === "object"`.
`null` is falsy, so it fails; arrays have `typeof` "object", so they pass. -/
def is_object : Value → Bool
  | .vobj _ => true
  | .varr _ => true
  | _ => false

/-- `keys_plz` (src/index.ts:56) applied to a dynamic input: `Object.keys`.
For an object, the keys in enumeration order; for an array, the index
strings `"0"`, `"1"`, …; for anything else no own enumerable keys. -/
def keys_plz : Value → List String
  | .vobj fields => fields.map Prod.fst
  | .varr elements => (List.range elements.length).map toString
  | _ => []

/-- `values_plz` (src/index.ts:57) applied to a dynamic input: `Object.values`.
For an array, `Object.values` is its elements in index order. -/
def values_plz : Value → List Value
  | .vobj fields => fields.map Prod.snd
  | .varr elements => elements
  | _ => []

/-- The string-keyed property names of `Object.prototype` (ECMA-262,
including the Annex B accessors, all implemented by Node and browsers).
Every plain object — in particular every shape literal and every plain
input object — inherits these, so JS `key in obj` is true and `obj[key]`
is defined for each of them on every such object. -/
def object_proto_names : List String :=
  ["constructor", "hasOwnProperty", "isPrototypeOf", "propertyIsEnumerable",
   "toLocaleString", "toString", "valueOf", "__proto__",
   "__defineGetter__", "__defineSetter__", "__lookupGetter__", "__lookupSetter__"]

/-- The string-keyed method names of `Array.prototype` (ECMA-262 through
ES2023, as in Node 20; `length`, `constructor` and `__proto__` are handled
separately). Arrays inherit these, ahead of `Object.prototype`. -/
def array_proto_method_names : List String :=
  ["at", "concat", "copyWithin", "entries", "every", "fill", "filter",
   "find", "findIndex", "findLast", "findLastIndex", "flat", "flatMap",
   "forEach", "includes", "indexOf", "join", "keys", "lastIndexOf", "map",
   "pop", "push", "reduce", "reduceRight", "reverse", "shift", "slice",
   "some", "sort", "splice", "toLocaleString", "toReversed", "toSorted",
   "toSpliced", "toString", "unshift", "values", "with"]

/-- The value a plain object inherits from `Object.prototype` at `key`:
`constructor` is the function `Object`; `__proto__` evaluates to
`Object.prototype` itself, an object with no own enumerable keys,
identified in the model with the empty plain object; the other ten are
the native methods, named after their key. -/
def proto_member (key : String) : Value :=
  if key == "constructor" then .vfun "Object"
  else if key == "__proto__" then .vobj []
  else .vfun key

/-- `input[key]` on a dynamic value. On a plain object: the own property
if present, else the member inherited from `Object.prototype` for its
twelve names, else the `undefined` sentinel. On an array: index strings
address the elements, `length` is the own element count, and the
remaining names are inherited from `Array.prototype` (whose `__proto__`
is `Array.prototype` itself, an array with no elements) and then
`Object.prototype`. -/
def getProp : Value → String → Value
  | .vobj fields, key =>
      match (fields.filter (fun kv => kv.1 == key)).head? with
      | some kv => kv.2
      | none => if object_proto_names.contains key then proto_member key else .vundefined
  | .varr elements, key =>
      match (elements.enum.filter (fun p => toString p.1 == key)).head? with
      | some p => p.2
      | none =>
          if key == "length" then .vnum (elements.length : Rat)
          else if key == "constructor" then .vfun "Array"
          else if key == "__proto__" then .varr []
          else if array_proto_method_names.contains key then .vfun key
          else if object_proto_names.contains key then proto_member key
          else .vundefined
  | _, _ => .vundefined

/-- `make_object_validator` (src/index.ts:59-102). The source iterates
`keys_plz(shape)` and indexes `shape[key]`; JavaScript object keys are
unique, so that traversal is exactly the traversal of the shape's entry
list in declaration order, which is how it is written here. The source's
`key in shape` is the JS `in` operator, which walks the prototype chain:
a shape literal inherits from `Object.prototype`, so the check also holds
for the twelve `Object.prototype` property names on every shape. -/
def make_object_validator (shape : List (String × Validator)) : Validator where
  is_valid input :=
    if !is_object input then false
    else if !(keys_plz input).all
        (fun key => (shape.map Prod.fst).contains key || object_proto_names.contains key) then
      false
    else shape.all (fun kv => kv.2.is_valid (getProp input kv.1))
  get_messages input name :=
    let quoted_name := double_quote name
    if !is_object input then [quoted_name ++ " is not an object"]
    else
      ((keys_plz input).filter
          (fun key => !((shape.map Prod.fst).contains key || object_proto_names.contains key))).map
          (fun key => quoted_name ++ " should not have a property named " ++ double_quote key ++ " ")
      ++ (shape.flatMap (fun kv => kv.2.get_messages (getProp input kv.1) kv.1)).map
          (fun message => quoted_name ++ "." ++ message)

/-- `Array.isArray`, used inline in `make_array_validator` (src/index.ts:107). -/
def is_array : Value → Bool
  | .varr _ => true
  | _ => false

/-- `make_array_validator` (src/index.ts:105-126). -/
def make_array_validator (element_validator : Validator) : Validator where
  is_valid input :=
    match input with
    | .varr elements => elements.all element_validator.is_valid
    | _ => false
  get_messages input name :=
    match input with
    | .varr elements =>
        elements.enum.flatMap
          (fun p => element_validator.get_messages p.2 (name ++ "[" ++ toString p.1 ++ "]"))
    | _ => [double_quote name ++ " is not an array"]

/-- `make_object_values_validator` (src/index.ts:128-151): extract the
object's values with `values_plz` and delegate to the array validator. -/
def make_object_values_validator (element_validator : Validator) : Validator :=
  let array_validator := make_array_validator element_validator
  { is_valid := fun input =>
      if !is_object input then false
      else array_validator.is_valid (.varr (values_plz input))
    get_messages := fun input name =>
      if !is_object input then [double_quote name ++ " is not an object"]
      else array_validator.get_messages (.varr (values_plz input)) name }

/-- `one_of` (src/index.ts:159-177). The source's fixed 2–4-argument
overloads are a static-typing device; at runtime it is variadic, modelled
as a list of alternatives. -/
def one_of (validators : List Validator) : Validator where
  is_valid input := validators.any (fun validator => validator.is_valid input)
  get_messages input name :=
    if !validators.any (fun validator => validator.is_valid input) then
      [double_quote name ++ ": " ++
        String.intercalate ", or "
          ((validators.filter (fun validator => !validator.is_valid input)).flatMap
            (fun validator => validator.get_messages input name))]
    else []

/-- `null_validator` (src/index.ts:179-190). -/
def null_validator : Validator where
  is_valid input := match input with | .vnull => true | _ => false
  get_messages input name :=
    match input with
    | .vnull => []
    | _ => [double_quote name ++ " should be null"]

/-- `nullable` (src/index.ts:192). -/
def nullable (validator : Validator) : Validator := one_of [validator, null_validator]

/-- A host regular expression, abstracted to its observable interface:
`test` (search semantics over strings) and the text of `toString()`. -/
structure RegExp where
  test : String → Bool
  toStr : String

/-- JavaScript `a || b` for `a : string | undefined`: `b` when `a` is
`undefined` or the empty string (both falsy), else `a`. -/
def str_or_else (a : Option String) (b : String) : String :=
  match a with
  | some s => if s == "" then b else s
  | none => b

/-- `make_regex_validator` (src/index.ts:194-204). -/
def make_regex_validator (regex : RegExp) (custom_message : Option String) : Validator where
  is_valid input := match input with | .vstr s => regex.test s | _ => false
  get_messages input name :=
    match input with
    | .vstr s =>
        if !regex.test s then
          [str_or_else custom_message
            (double_quote name ++ " should be a string that matches " ++ double_quote regex.toStr)]
        else []
    | _ =>
        [str_or_else custom_message
          (double_quote name ++ " should be a string that matches " ++ double_quote regex.toStr)]

/-- `undefined_validator` (src/index.ts:206-217). -/
def undefined_validator : Validator where
  is_valid input := match input with | .vundefined => true | _ => false
  get_messages input name :=
    match input with
    | .vundefined => []
    | _ => [double_quote name ++ " should be undefined"]

mutual

/-- Rendering of a value inside a template literal (JS `String(value)`):
exact for the null/undefined/boolean/string cases. Integral numbers render
as their decimal numeral, like the host; non-integral numbers fall back to
the rational's own textual form (the host's shortest-round-trip float
printing has no counterpart on `Rat`, and no message in this development
renders a non-integral number). Arrays render via `Array.prototype.join`
with `","` (null/undefined elements become empty), objects as
`[object Object]`, and native functions as the host's
`function name() { [native code] }` source text. -/
def jsToString : Value → String
  | .vnull => "null"
  | .vundefined => "undefined"
  | .vbool b => cond b "true" "false"
  | .vnum q => if q.den == 1 then toString q.num else toString q
  | .vstr s => s
  | .varr elements => String.intercalate "," (jsJoinParts elements)
  | .vobj _ => "[object Object]"
  | .vfun f => "function " ++ f ++ "() \x7b [native code] \x7d"

def jsJoinParts : List Value → List String
  | [] => []
  | .vnull :: rest => "" :: jsJoinParts rest
  | .vundefined :: rest => "" :: jsJoinParts rest
  | element :: rest => jsToString element :: jsJoinParts rest

end

/-- JavaScript `===`: structural on scalars (the model has no `NaN`),
reference equality on objects/arrays, modelled as `false` there (two
separately-constructed literals are distinct references). The
representable functions are the canonical inherited natives, so two
`vfun`s are the same reference exactly when they are the same member. -/
def jsStrictEq : Value → Value → Bool
  | .vnull, .vnull => true
  | .vundefined, .vundefined => true
  | .vbool a, .vbool b => a == b
  | .vnum a, .vnum b => a == b
  | .vstr a, .vstr b => a == b
  | .vfun a, .vfun b => a == b
  | _, _ => false

/-- `make_exact_validator` (src/index.ts:219-229). -/
def make_exact_validator (value : Value) : Validator where
  is_valid input := jsStrictEq input value
  get_messages input name :=
    if !jsStrictEq input value then
      [double_quote name ++ " should be \"" ++ jsToString value ++ "\""]
    else []

/-- `optional` (src/index.ts:231). -/
def optional (validator : Validator) : Validator := one_of [validator, undefined_validator]

/-!
## Theorems about the claims
-/

/-- C1: the consistency law — `is_valid(x)` true iff `get_messages(x, n)` is
empty — is claimed for every primitive, but `integer_validator` violates it:
at the number `1/2`, `is_valid` is `false` (not an integer) while
`get_messages` is `[]` (its branch tests `is_number`, which holds). -/
theorem C1_integer_breaks_consistency_law :
    integer_validator.is_valid (.vnum (1 / 2)) = false ∧
    integer_validator.get_messages (.vnum (1 / 2)) "n" = [] := by
  refine ⟨?_, rfl⟩
  show ((1 / 2 : Rat).den == 1) = false
  norm_num

/-- C2: `integer_validator.is_valid` holds exactly on numbers with
denominator 1 (host `Number.isInteger` semantics), while `get_messages` is
driven by the number check: empty for every number (fractional or not) and
the single "is not an integer" message for every non-number. -/
theorem C2_integer_validator_behavior :
    (∀ x : Value, integer_validator.is_valid x = true ↔
      ∃ q : Rat, x = .vnum q ∧ q.den = 1) ∧
    (∀ (q : Rat) (n : String), integer_validator.get_messages (.vnum q) n = []) ∧
    (∀ (x : Value) (n : String), (∀ q : Rat, x ≠ .vnum q) →
      integer_validator.get_messages x n = [double_quote n ++ " is not an integer"]) := by
  refine ⟨?_, fun q n => rfl, ?_⟩
  · intro x
    cases x <;> simp [integer_validator, is_integer]
  · intro x n h
    cases x <;> first
      | rfl
      | exact absurd rfl (h _)

theorem C2_witness :
    integer_validator.get_messages (.vstr "x") "n" = ["\"n\" is not an integer"] :=
  C2_integer_validator_behavior.2.2 (.vstr "x") "n" (fun q h => by cases h)

/-- C7: `nullable` and `optional` are definitionally `one_of` with the
null/undefined primitive appended, so they inherit one-of's behavior
(including the message envelope), and the four acceptance facts from the
spec hold. -/
theorem C7_nullable_optional_are_one_of_sugar :
    (∀ v : Validator, nullable v = one_of [v, null_validator]) ∧
    (∀ v : Validator, optional v = one_of [v, undefined_validator]) ∧
    (optional number_validator).is_valid .vundefined = true ∧
    (optional number_validator).is_valid .vnull = false ∧
    (nullable number_validator).is_valid .vnull = true ∧
    (nullable number_validator).is_valid .vundefined = false ∧
    (optional number_validator).get_messages (.vstr "a") "n" =
      ["\"n\": \"n\" is not a number, or \"n\" should be undefined"] :=
  ⟨fun _ => rfl, fun _ => rfl, rfl, rfl, rfl, rfl, rfl⟩

/-- C10: on an array input, `object_values(e)` and `array(e)` agree on both
`is_valid` and `get_messages`: an array passes the is-object check and its
`Object.values` sequence is its element list in index order. -/
theorem C10_object_values_agrees_with_array_on_arrays :
    ∀ (e : Validator) (xs : List Value) (n : String),
      (make_object_values_validator e).is_valid (.varr xs) =
        (make_array_validator e).is_valid (.varr xs) ∧
      (make_object_values_validator e).get_messages (.varr xs) n =
        (make_array_validator e).get_messages (.varr xs) n ∧
      values_plz (.varr xs) = xs :=
  fun _ _ _ => ⟨rfl, rfl, rfl⟩

/-- C8: `object_values(e)` rejects non-objects with the single
"is not an object" message, and on objects delegates both operations to
`array(e)` applied to the object's value sequence under the object's own
name; the empty object is valid. -/
theorem C8_object_values_delegates_to_array :
    ∀ (e : Validator) (x : Value) (n : String),
      ((make_object_values_validator e).is_valid x =
        (is_object x && (make_array_validator e).is_valid (.varr (values_plz x)))) ∧
      ((make_object_values_validator e).get_messages x n =
        if is_object x then (make_array_validator e).get_messages (.varr (values_plz x)) n
        else [double_quote n ++ " is not an object"]) ∧
      (make_object_values_validator e).is_valid (.vobj []) = true := by
  intro e x n
  refine ⟨?_, ?_, rfl⟩ <;>
    cases h : is_object x <;> simp [make_object_values_validator, h]

/-- C5: `one_of` accepts exactly when some alternative accepts; on
rejection its single message is the name, a colon, and the messages of
every alternative (all of them reject then) concatenated in alternative
order and joined with ", or "; on acceptance there are no messages. -/
theorem C5_one_of_behavior :
    ∀ (vs : List Validator) (x : Value) (n : String),
      ((one_of vs).is_valid x = vs.any (fun v => v.is_valid x)) ∧
      ((one_of vs).get_messages x n =
        if vs.any (fun v => v.is_valid x) then []
        else [double_quote n ++ ": " ++
          String.intercalate ", or " (vs.flatMap (fun v => v.get_messages x n))]) := by
  intro vs x n
  refine ⟨rfl, ?_⟩
  cases h : vs.any (fun v => v.is_valid x) with
  | true =>
      simp only [one_of, h, if_pos]
      simp
  | false =>
      have hall : ∀ v ∈ vs, v.is_valid x = false := by
        simpa using List.any_eq_false.mp h
      have hfilter : vs.filter (fun v => !v.is_valid x) = vs :=
        List.filter_eq_self.mpr (fun v hv => by simp [hall v hv])
      simp [one_of, h, hfilter]
      exact hall

/-- C6: `array(e)` rejects every non-array with the single "is not an
array" message; on an array it accepts iff every element passes `e` (the
empty array passes), and its messages are the concatenation, in ascending
index order, of the element's messages under the name `n[i]`. -/
theorem C6_array_validator_behavior :
    ∀ (e : Validator) (xs : List Value) (x : Value) (n : String),
      ((make_array_validator e).is_valid (.varr xs) = xs.all (fun el => e.is_valid el)) ∧
      ((make_array_validator e).get_messages (.varr xs) n =
        xs.enum.flatMap
          (fun p => e.get_messages p.2 (n ++ "[" ++ toString p.1 ++ "]"))) ∧
      (is_array x = false →
        (make_array_validator e).is_valid x = false ∧
        (make_array_validator e).get_messages x n = [double_quote n ++ " is not an array"]) ∧
      ((make_array_validator e).is_valid (.varr []) = true) := by
  intro e xs x n
  refine ⟨rfl, rfl, ?_, rfl⟩
  intro h
  cases x <;> first
    | exact ⟨rfl, rfl⟩
    | cases h

theorem C6_witness :
    (make_array_validator string_validator).is_valid (.vnum 3) = false ∧
    (make_array_validator string_validator).get_messages (.vnum 3) "n" =
      ["\"n\" is not an array"] :=
  (C6_array_validator_behavior string_validator [] (.vnum 3) "n").2.2.1 rfl

/-- The object validator's early-return chain as one boolean conjunction. -/
theorem object_is_valid_eq (shape : List (String × Validator)) (x : Value) :
    (make_object_validator shape).is_valid x =
      (is_object x &&
        (keys_plz x).all
          (fun key => (shape.map Prod.fst).contains key || object_proto_names.contains key) &&
        shape.all (fun kv => kv.2.is_valid (getProp x kv.1))) := by
  simp only [make_object_validator]
  cases h1 : is_object x <;>
    cases h2 : (keys_plz x).all
        (fun key => (shape.map Prod.fst).contains key || object_proto_names.contains key) <;>
      simp [h1, h2]

/-- C3: as stated the claim is false: the source's unknown-key check is the
JS `in` operator, which walks the prototype chain, so an input key named
after an `Object.prototype` member counts as declared on every shape —
`object({}).is_valid({toString: 5})` is true — and a shape key with such a
name reads the inherited native function, not the undefined sentinel, from
an input that lacks it, so an `optional` child rejects it. -/
theorem C3_counterexample :
    (make_object_validator []).is_valid (.vobj [("toString", .vnum 5)]) = true ∧
    (([] : List (String × Validator)).map Prod.fst).contains "toString" = false ∧
    getProp (.vobj []) "toString" = .vfun "toString" ∧
    (make_object_validator [("toString", optional string_validator)]).is_valid (.vobj [])
      = false := by
  refine ⟨by decide, rfl, rfl, by decide⟩

/-- C3 (amended): `object(shape)` rejects every non-object (the is-object
check also accepts arrays); a plain-object input is accepted iff every
input key is declared in the shape or is an `Object.prototype` property
name, and every shape key's child accepts the input's value at that key —
the own value if present, else the inherited `Object.prototype` member
for prototype-named keys, else the undefined sentinel, so `optional`
children accept absence of ordinarily-named keys. -/
theorem C3_object_is_valid_with_prototype_chain :
    (∀ (shape : List (String × Validator)) (fields : List (String × Value)),
      (make_object_validator shape).is_valid (.vobj fields) = true ↔
        ((∀ k ∈ fields.map Prod.fst,
            ((shape.map Prod.fst).contains k || object_proto_names.contains k) = true) ∧
         (∀ kv ∈ shape, kv.2.is_valid (getProp (.vobj fields) kv.1) = true))) ∧
    (∀ (shape : List (String × Validator)) (x : Value), is_object x = false →
      (make_object_validator shape).is_valid x = false) ∧
    (∀ xs : List Value, is_object (.varr xs) = true) ∧
    getProp (.vobj []) "a" = .vundefined ∧
    (make_object_validator [("a", optional number_validator)]).is_valid (.vobj []) = true := by
  refine ⟨?_, ?_, fun xs => rfl, rfl, rfl⟩
  · intro shape fields
    rw [object_is_valid_eq]
    simp [keys_plz, is_object, List.all_eq_true]
  · intro shape x h
    rw [object_is_valid_eq, h]
    rfl

theorem C3_witness :
    (make_object_validator []).is_valid (.vnum 3) = false :=
  C3_object_is_valid_with_prototype_chain.2.1 [] (.vnum 3) rfl

/-- C4: as stated the claim is false: an input key named after an
`Object.prototype` member is never reported as unrecognized, because the
source's filter is `!(key in shape)` and JS `in` finds the inherited
property on every shape — `object({}).get_messages({toString: 5}, "n")`
is empty, where the claim demands one unknown-key message. -/
theorem C4_counterexample :
    (make_object_validator []).get_messages (.vobj [("toString", .vnum 5)]) "n" = [] ∧
    (([] : List (String × Validator)).map Prod.fst).contains "toString" = false := by
  refine ⟨by decide, rfl⟩

/-- C4 (amended): on a plain-object input, `object(shape).get_messages`
lists first one "should not have a property named" message (with its
trailing space) per input key that is neither declared in the shape nor an
`Object.prototype` property name, in input key order, then each shape
key's child messages in declaration order, prefixed with the quoted name
and a dot; a non-object input gets exactly the single "is not an object"
message. -/
theorem C4_object_get_messages_with_prototype_chain :
    (∀ (shape : List (String × Validator)) (fields : List (String × Value)) (n : String),
      (make_object_validator shape).get_messages (.vobj fields) n =
        ((fields.map Prod.fst).filter
            (fun k => !((shape.map Prod.fst).contains k || object_proto_names.contains k))).map
            (fun k => double_quote n ++ " should not have a property named " ++
              double_quote k ++ " ")
        ++ (shape.map (fun kv => kv.2.get_messages (getProp (.vobj fields) kv.1) kv.1)).flatten.map
            (fun m => double_quote n ++ "." ++ m)) ∧
    (∀ (shape : List (String × Validator)) (x : Value) (n : String), is_object x = false →
      (make_object_validator shape).get_messages x n = [double_quote n ++ " is not an object"]) ∧
    (make_object_validator []).get_messages (.vobj [("extra", .vnum 1)]) "n" =
      ["\"n\" should not have a property named \"extra\" "] := by
  refine ⟨?_, ?_, by decide⟩
  · intro shape fields n
    simp [make_object_validator, keys_plz, is_object, List.flatMap_def]
  · intro shape x n h
    cases x <;> first
      | rfl
      | cases h

theorem C4_witness :
    (make_object_validator []).get_messages .vnull "n" = ["\"n\" is not an object"] :=
  C4_object_get_messages_with_prototype_chain.2.1 [] .vnull "n" rfl

/-- A sample regular expression: full-match of the literal string "GET",
with the `toString()` text a host regex for it would print. -/
def regex_GET : RegExp := ⟨fun s => s == "GET", "/^GET$/"⟩

/-- C9: as stated the claim is false: the source combines the custom
message with `||`, and the empty string is falsy in the host, so a
supplied empty `custom_message` is not returned verbatim — the generated
message appears instead. -/
theorem C9_counterexample :
    (make_regex_validator regex_GET (some "")).is_valid (.vstr "PUT") = false ∧
    (make_regex_validator regex_GET (some "")).get_messages (.vstr "PUT") "n" =
      ["\"n\" should be a string that matches \"/^GET$/\""] ∧
    (make_regex_validator regex_GET (some "")).get_messages (.vstr "PUT") "n" ≠ [""] := by
  refine ⟨rfl, rfl, ?_⟩
  decide

/-- C9 (amended): `regex(pattern, custom_message).is_valid` holds exactly
on strings the pattern matches; whenever a non-empty `custom_message` is
supplied, every failing input yields exactly that message verbatim. -/
theorem C9_regex_behavior :
    ∀ (re : RegExp) (cm : Option String) (m : String) (x : Value) (n : String),
      ((make_regex_validator re cm).is_valid x = true ↔
        ∃ s, x = .vstr s ∧ re.test s = true) ∧
      (m ≠ "" → (make_regex_validator re (some m)).is_valid x = false →
        (make_regex_validator re (some m)).get_messages x n = [m]) := by
  intro re cm m x n
  constructor
  · cases x <;> simp [make_regex_validator]
  · intro hm hv
    have hmb : (m == "") = false := by simpa using hm
    cases x <;> simp_all [make_regex_validator, str_or_else, hmb]

theorem C9_witness :
    (make_regex_validator regex_GET (some "nope")).get_messages (.vnum 3) "n" = ["nope"] :=
  (C9_regex_behavior regex_GET (some "nope") "nope" (.vnum 3) "n").2 (by decide) rfl

end BodyValidator
